import Mathlib

/-!
sonar_comment: the SonarQube webhook that comments on GitLab

A shallow embedding of `main.go`: the webhook handler registered by `main`,
`formatComment` and `postToGitLab`.

Go strings are Lean strings.  A nil slice and an empty slice range over
nothing, so both are the empty list.  A Go map is an association list, and
the nil map is `none`.  What the program gets from outside (the process
environment, `json.Unmarshal`, `http.NewRequest`, `client.Do`) is the
parameter `Env`.  The requests the handler hands to `client.Do` and the lines
it logs are returned as lists.  A request is recorded by what the program
gives the library to build it: the method, the URL string, the body and the
headers.  What the library makes of the URL string and whether the transport
sends anything are not modelled.
-/

set_option maxRecDepth 100000

namespace SonarComment

/-! ## Data model (main.go, lines 12-46) -/

structure QualityGateCondition where
  Metric : String
  Operator : String
  Value : String
  Status : String
  ErrorThreshold : String
  deriving DecidableEq

structure QualityGate where
  Name : String
  Status : String
  Conditions : List QualityGateCondition
  deriving DecidableEq

structure Project where
  Key : String
  Name : String
  URL : String
  deriving DecidableEq

structure Branch where
  Name : String
  Type_ : String
  IsMain : Bool
  URL : String
  deriving DecidableEq

/-- A Go `map[string]string`: `none` is the nil map. -/
abbrev GoMap := Option (List (String × String))

structure WebhookPayload where
  ServerURL : String
  TaskID : String
  Status : String
  AnalysedAt : String
  Revision : String
  ChangedAt : String
  Project : Project
  Branch : Branch
  QualityGate : QualityGate
  Properties : GoMap
  deriving DecidableEq

/-- The index expression `m[k]` of a Go map of strings: the zero value `""`
when the key is missing or the map is nil. -/
def GoMap.index (m : GoMap) (k : String) : String :=
  match m with
  | none => ""
  | some kvs => (kvs.lookup k).getD ""

/-! ## fmt.Sprintf on string arguments -/

/-- The text `fmt.Sprintf` writes for arguments left over after the format is
used up. -/
def sprintfExtra (args : List String) : List Char :=
  "%!(EXTRA ".data ++ (", ".intercalate (args.map fun a => "string=" ++ a)).data ++ [')']

/-- The scanning loop of `fmt.Sprintf` for string arguments and the verbs
`%s` and `%v`, which both write the argument unchanged; `%%` writes a percent
sign.  Other directives do not occur in this program and are copied through. -/
def sprintfAux : List Char → List String → List Char
  | [], [] => []
  | [], a :: args => sprintfExtra (a :: args)
  | c :: fmt, args =>
    if c = '%' then
      match fmt, args with
      | [], _ => "%!(NOVERB)".data
      | v :: rest, [] =>
        if v = '%' then '%' :: sprintfAux rest []
        else if v = 's' ∨ v = 'v' then "%!".data ++ v :: "(MISSING)".data ++ sprintfAux rest []
        else c :: v :: sprintfAux rest []
      | v :: rest, a :: more =>
        if v = '%' then '%' :: sprintfAux rest (a :: more)
        else if v = 's' ∨ v = 'v' then a.data ++ sprintfAux rest more
        else c :: v :: sprintfAux rest (a :: more)
    else c :: sprintfAux fmt args

def sprintf (fmt : String) (args : List String) : String :=
  ⟨sprintfAux fmt.data args⟩

/-! ## formatComment (main.go, lines 93-106) -/

def formatComment (qualityGate : QualityGate) (branch : Branch) : String :=
  let comment := sprintf "SonarQube Quality Gate: <a href='%s'>%s</a>\n\n"
    [branch.URL, qualityGate.Status]
  qualityGate.Conditions.foldl
    (fun comment condition =>
      comment ++ sprintf "- %s (%s): %s (%s) [Threshold: %s]\n"
        [condition.Metric, condition.Operator, condition.Value, condition.Status,
         condition.ErrorThreshold])
    comment

/-! ## url.Values.Encode for the single field `note` -/

/-- The UTF-8 bytes of a character, the bytes a Go string holds for it. -/
def utf8Bytes (c : Char) : List Nat :=
  let v := c.toNat
  if v < 0x80 then [v]
  else if v < 0x800 then [0xC0 + v / 64, 0x80 + v % 64]
  else if v < 0x10000 then [0xE0 + v / 4096, 0x80 + v / 64 % 64, 0x80 + v % 64]
  else [0xF0 + v / 262144, 0x80 + v / 4096 % 64, 0x80 + v / 64 % 64, 0x80 + v % 64]

/-- The function `shouldEscape` of `net/url` in the mode `encodeQueryComponent`:
letters, digits and `-`, `_`, `.`, `~` are kept, every other byte is escaped. -/
def shouldEscape (c : Nat) : Bool :=
  if ('a'.toNat ≤ c ∧ c ≤ 'z'.toNat) ∨ ('A'.toNat ≤ c ∧ c ≤ 'Z'.toNat)
      ∨ ('0'.toNat ≤ c ∧ c ≤ '9'.toNat) then false
  else if c = '-'.toNat ∨ c = '_'.toNat ∨ c = '.'.toNat ∨ c = '~'.toNat then false
  else true

def upperhex : List Char := "0123456789ABCDEF".data

/-- One byte of `url.QueryEscape`: a space becomes `+`, an escaped byte
becomes `%XX` in upper-case hexadecimal, any other byte is kept. -/
def escapeByte (c : Nat) : List Char :=
  if c = ' '.toNat then ['+']
  else if shouldEscape c then ['%', upperhex.getD (c / 16) '0', upperhex.getD (c % 16) '0']
  else [Char.ofNat c]

def queryEscape (s : String) : String :=
  ⟨(s.data.flatMap utf8Bytes).flatMap escapeByte⟩

/-- What `data.Encode()` returns after `data := url.Values{}` and
`data.Set(key, value)`: the only key and its only value, both escaped, joined
by `=`. -/
def encodeSingle (key value : String) : String :=
  queryEscape key ++ "=" ++ queryEscape value

/-! ## The outside world -/

/-- An outbound request as `postToGitLab` builds it (lines 109-118): the
method, the URL string `urlStr` and the body it passes to `http.NewRequest`,
and the headers it sets, with the keys spelled as in the calls of
`Header.Set`.  `URLStr` is the string passed, not the URL the library parses
from it: the library escapes unsafe characters of the path in what it sends,
and ends the path at `?` or `#`. -/
structure Request where
  Method : String
  URLStr : String
  Body : String
  Header : List (String × String)
  deriving DecidableEq

/-- The part of an `*http.Response` the program reads: the status code and
the bytes `ioutil.ReadAll(resp.Body)` returns. -/
structure Response where
  StatusCode : Nat
  Body : String
  deriving DecidableEq

/-- `req.Header.Set(key, value)`: replaces the value of the key, or adds it. -/
def headerSet (h : List (String × String)) (key value : String) : List (String × String) :=
  if h.any (fun kv => kv.1 == key) then
    h.map (fun kv => if kv.1 == key then (key, value) else kv)
  else h ++ [(key, value)]

/-- What the handler is given by its surroundings.
* `getenv` is `os.Getenv`;
* `unmarshal` is `json.Unmarshal` into a fresh `WebhookPayload`, `none` when
  it returns an error;
* `newRequestErr method url` is the error of `http.NewRequest`, `none` when
  the method and the URL string are accepted;
* `clientDo` is `client.Do`: a transport error, or the response. -/
structure Env where
  getenv : String → String
  unmarshal : String → Option WebhookPayload
  newRequestErr : String → String → Option String
  clientDo : Request → Except String Response

/-- The inbound request: its method, and what `ioutil.ReadAll(r.Body)` returns
(the error text, or the bytes read). -/
structure InRequest where
  Method : String
  Body : Except String String

/-- What one run of the handler does: the status and body of the inbound
response, the lines logged, and the requests handed to `client.Do`, in
order.  A request handed to `client.Do` is a publish attempt: the transport
may fail without sending it. -/
structure Handled where
  status : Nat
  body : String
  logs : List String
  outbound : List Request
  deriving DecidableEq

def StatusOK : Nat := 200
def StatusCreated : Nat := 201
def StatusBadRequest : Nat := 400
def StatusMethodNotAllowed : Nat := 405
def StatusInternalServerError : Nat := 500

/-- The call `http.Error(w, msg, code)` followed by `return`. -/
def httpError (msg : String) (code : Nat) : Handled :=
  ⟨code, msg ++ "\n", [], []⟩

/-- The output of `log.Println(msg)`, without the time stamp. -/
def logPrintln (msg : String) : String := msg ++ "\n"

/-! ## postToGitLab (main.go, lines 107-132) -/

/-- Lines 109-118: the form body with the field `note`, and the request with
its two headers.  The request keeps `urlStr` as passed to `http.NewRequest`;
the URL the library parses from it is not computed here. -/
def newPostRequest (urlStr comment token : String) : Request :=
  let data := encodeSingle "note" comment
  let req : Request := ⟨"POST", urlStr, data, []⟩
  let req := { req with Header := headerSet req.Header "PRIVATE-TOKEN" token }
  { req with Header := headerSet req.Header "Content-Type" "application/x-www-form-urlencoded" }

/-- The returned error (`none` is nil) and the requests handed to
`client.Do`. -/
def postToGitLab (env : Env) (urlStr comment token : String) : Option String × List Request :=
  match env.newRequestErr "POST" urlStr with
  | some err => (some err, [])
  | none =>
    let req := newPostRequest urlStr comment token
    match env.clientDo req with
    | Except.error err => (some err, [req])
    | Except.ok resp =>
      if resp.StatusCode ≠ StatusCreated then
        (some (sprintf "failed to post comment: %s" [resp.Body]), [req])
      else (none, [req])

/-! ## The webhook handler (main.go, lines 48-88) -/

/-- The handler from line 64 on, once the body is decoded. -/
def handlePayload (env : Env) (payload : WebhookPayload) : Handled :=
  if payload.Branch.IsMain then
    ⟨StatusOK, "", [logPrintln "Skipping main branch"], []⟩
  else
    let comment := formatComment payload.QualityGate payload.Branch
    let gitlabURL := env.getenv "GITLAB_URL"
    let token := env.getenv "GITLAB_TOKEN"
    let projectID := payload.Properties.index "sonar.analysis.project_id"
    let commitSHA := payload.Properties.index "sonar.analysis.commit_sha"
    if projectID = "" ∨ commitSHA = "" then
      ⟨StatusOK, "", [logPrintln "Missing required properties for MR"], []⟩
    else
      let commentURL := sprintf "%s/api/v4/projects/%s/repository/commits/%s/comments"
        [gitlabURL, projectID, commitSHA]
      match postToGitLab env commentURL comment token with
      | (some err, sent) => ⟨StatusOK, "", [sprintf "Failed to post comment: %v\n" [err]], sent⟩
      | (none, sent) => ⟨StatusOK, "", [logPrintln "Comment posted successfully"], sent⟩

def webhookHandler (env : Env) (r : InRequest) : Handled :=
  if r.Method ≠ "POST" then
    httpError "Invalid request method" StatusMethodNotAllowed
  else
    match r.Body with
    | Except.error _ => httpError "Failed to read request body" StatusInternalServerError
    | Except.ok body =>
      match env.unmarshal body with
      | none => httpError "Failed to parse JSON" StatusBadRequest
      | some payload => handlePayload env payload

/-- The request reaches line 64 with this payload: it is a POST, its body was
read, and the body decodes to the payload. -/
def decodesTo (env : Env) (r : InRequest) (payload : WebhookPayload) : Prop :=
  r.Method = "POST" ∧ ∃ body, r.Body = Except.ok body ∧ env.unmarshal body = some payload

/-! ## Concrete surroundings and inputs -/

/-- The function `stringContainsCTLByte` of `net/url`. -/
def stringContainsCTLByte (s : List Char) : Bool :=
  (s.flatMap utf8Bytes).any fun b => b < ' '.toNat ∨ b = 0x7f

/-- The first check of `url.Parse`, through which `http.NewRequest` parses its
URL string: the string up to the first `#` must hold no ASCII control byte.
Every other URL string is accepted here. -/
def ctlCheck (_method urlStr : String) : Option String :=
  if stringContainsCTLByte (urlStr.data.takeWhile fun c => c ≠ '#') then
    some "net/url: invalid control character in URL"
  else none

/-- Surroundings with the given base URL and the token `token123`, in which
the body `raw` decodes to `payload` and no other body decodes, and the remote
answers every request with the given status and body. -/
def envWith (base raw : String) (payload : WebhookPayload) (code : Nat) (answer : String) :
    Env where
  getenv := fun k =>
    if k = "GITLAB_URL" then base else if k = "GITLAB_TOKEN" then "token123" else ""
  unmarshal := fun body => if body = raw then some payload else none
  newRequestErr := ctlCheck
  clientDo := fun _ => Except.ok ⟨code, answer⟩

/-- A payload with only these fields set, as the test table builds them. -/
def payloadOf (isMain : Bool) (branchURL status : String)
    (conditions : List QualityGateCondition) (properties : GoMap) : WebhookPayload :=
  { ServerURL := "", TaskID := "", Status := "", AnalysedAt := "", Revision := "",
    ChangedAt := "", Project := ⟨"", "", ""⟩, Branch := ⟨"", "", isMain, branchURL⟩,
    QualityGate := ⟨"", status, conditions⟩, Properties := properties }

/-- The payload of the test case "Post to Commit". -/
def commitPayload : WebhookPayload :=
  payloadOf false "" "OK" []
    (some [("sonar.analysis.project_id", "123"), ("sonar.analysis.commit_sha", "abc123")])

def commitJSON : String :=
  "\x7b\"branch\":\x7b\"isMain\":false\x7d,\"qualityGate\":\x7b\"status\":\"OK\"\x7d,\"properties\":\x7b\"sonar.analysis.project_id\":\"123\",\"sonar.analysis.commit_sha\":\"abc123\"\x7d\x7d"

/-- The payload of the test case "Post to Merge Request". -/
def mergeRequestPayload : WebhookPayload :=
  payloadOf false "" "FAILED" []
    (some [("sonar.analysis.project_id", "123"), ("sonar.analysis.mr_iid", "456")])

def mergeRequestJSON : String :=
  "\x7b\"branch\":\x7b\"isMain\":false\x7d,\"qualityGate\":\x7b\"status\":\"FAILED\"\x7d,\"properties\":\x7b\"sonar.analysis.project_id\":\"123\",\"sonar.analysis.mr_iid\":\"456\"\x7d\x7d"

/-- A failed gate with one condition on the main branch, with the commit
properties set. -/
def mainBranchPayload : WebhookPayload :=
  payloadOf true "" "ERROR" [⟨"coverage", "LT", "71.2", "ERROR", "80"⟩]
    (some [("sonar.analysis.project_id", "123"), ("sonar.analysis.commit_sha", "abc123")])

def mainBranchJSON : String :=
  "\x7b\"branch\":\x7b\"isMain\":true\x7d,\"qualityGate\":\x7b\"status\":\"ERROR\",\"conditions\":[\x7b\"metric\":\"coverage\",\"operator\":\"LT\",\"value\":\"71.2\",\"status\":\"ERROR\",\"errorThreshold\":\"80\"\x7d]\x7d,\"properties\":\x7b\"sonar.analysis.project_id\":\"123\",\"sonar.analysis.commit_sha\":\"abc123\"\x7d\x7d"

/-- The commit properties and the merge request property together. -/
def bothPayload : WebhookPayload :=
  payloadOf false "" "OK" []
    (some [("sonar.analysis.project_id", "42"), ("sonar.analysis.commit_sha", "deadbeef"),
      ("sonar.analysis.mr_iid", "7")])

def bothJSON : String :=
  "\x7b\"branch\":\x7b\"isMain\":false\x7d,\"qualityGate\":\x7b\"status\":\"OK\"\x7d,\"properties\":\x7b\"sonar.analysis.project_id\":\"42\",\"sonar.analysis.commit_sha\":\"deadbeef\",\"sonar.analysis.mr_iid\":\"7\"\x7d\x7d"

/-- The scenario of the spec with the keys spelled `project_id` and
`commit_sha`. -/
def bareKeysPayload : WebhookPayload :=
  payloadOf false "" "OK" [] (some [("project_id", "123"), ("commit_sha", "abc123")])

def bareKeysJSON : String :=
  "\x7b\"branch\":\x7b\"isMain\":false\x7d,\"qualityGate\":\x7b\"status\":\"OK\"\x7d,\"properties\":\x7b\"project_id\":\"123\",\"commit_sha\":\"abc123\"\x7d\x7d"

/-- What the body `{}` decodes to: every field zero, the map nil. -/
def emptyPayload : WebhookPayload :=
  payloadOf false "" "" [] none

def emptyJSON : String := "\x7b\x7d"

/-- The commit properties with the gate status `FAILED`. -/
def failedCommitPayload : WebhookPayload :=
  payloadOf false "" "FAILED" []
    (some [("sonar.analysis.project_id", "123"), ("sonar.analysis.commit_sha", "abc123")])

def failedCommitJSON : String :=
  "\x7b\"branch\":\x7b\"isMain\":false\x7d,\"qualityGate\":\x7b\"status\":\"FAILED\"\x7d,\"properties\":\x7b\"sonar.analysis.project_id\":\"123\",\"sonar.analysis.commit_sha\":\"abc123\"\x7d\x7d"

/-- The surroundings of the test: the base URL of the test table and a remote
that answers 201. -/
def testEnv (raw : String) (payload : WebhookPayload) : Env :=
  envWith "http://gitlab.example.com" raw payload StatusCreated ""

/-- A POST whose body was read in full. -/
def postOf (raw : String) : InRequest := ⟨"POST", Except.ok raw⟩

/-! ## Lemmas -/

theorem sprintf_header (u st : String) :
    sprintf "SonarQube Quality Gate: <a href='%s'>%s</a>\n\n" [u, st]
      = "SonarQube Quality Gate: <a href='" ++ u ++ "'>" ++ st ++ "</a>\n\n" := by
  apply String.ext
  simp [sprintf, sprintfAux]

theorem sprintf_condition (c : QualityGateCondition) :
    sprintf "- %s (%s): %s (%s) [Threshold: %s]\n"
        [c.Metric, c.Operator, c.Value, c.Status, c.ErrorThreshold]
      = "- " ++ c.Metric ++ " (" ++ c.Operator ++ "): " ++ c.Value ++ " (" ++ c.Status
          ++ ") [Threshold: " ++ c.ErrorThreshold ++ "]\n" := by
  apply String.ext
  simp [sprintf, sprintfAux]

theorem sprintf_commentURL (b p c : String) :
    sprintf "%s/api/v4/projects/%s/repository/commits/%s/comments" [b, p, c]
      = b ++ "/api/v4/projects/" ++ p ++ "/repository/commits/" ++ c ++ "/comments" := by
  apply String.ext
  simp [sprintf, sprintfAux]

theorem sprintf_failed (body : String) :
    sprintf "failed to post comment: %s" [body] = "failed to post comment: " ++ body := by
  apply String.ext
  simp [sprintf, sprintfAux]

theorem foldl_append_eq (g : QualityGateCondition → String) (ys : List QualityGateCondition)
    (init : String) :
    ys.foldl (fun acc c => acc ++ g c) init = init ++ String.join (ys.map g) := by
  induction ys generalizing init with
  | nil => simp [String.join]
  | cons y ys ih =>
    have hj : ∀ (l : List String) (a : String),
        l.foldl (fun r s => r ++ s) a = a ++ l.foldl (fun r s => r ++ s) "" := by
      intro l
      induction l with
      | nil => intro a; simp
      | cons x l ihl =>
        intro a
        simp only [List.foldl_cons]
        rw [ihl (a ++ x), ihl ("" ++ x)]
        simp [String.append_assoc]
    simp only [List.foldl_cons, List.map_cons, String.join]
    rw [ih, hj (ys.map g) ("" ++ g y)]
    simp [String.join, String.append_assoc]

theorem queryEscape_append (a b : String) :
    queryEscape (a ++ b) = queryEscape a ++ queryEscape b := by
  apply String.ext
  simp [queryEscape]

theorem alphanum_range (c : Char) (h : c.isAlphanum = true) :
    (65 ≤ c.toNat ∧ c.toNat ≤ 90) ∨ (97 ≤ c.toNat ∧ c.toNat ≤ 122)
      ∨ (48 ≤ c.toNat ∧ c.toNat ≤ 57) := by
  simp only [Char.isAlphanum, Char.isAlpha, Char.isUpper, Char.isLower, Char.isDigit,
    Bool.or_eq_true, Bool.and_eq_true, decide_eq_true_eq, ge_iff_le] at h
  simp only [UInt32.le_def, Fin.le_def] at h
  have e : c.toNat = c.val.val.val := rfl
  rw [e]
  rcases h with (h | h) | h
  · left; exact h
  · right; left; exact h
  · right; right; exact h

theorem escape_alphanum (c : Char) (h : c.isAlphanum = true) :
    (utf8Bytes c).flatMap escapeByte = [c] := by
  have hn := alphanum_range c h
  have h1 : utf8Bytes c = [c.toNat] := by
    have : c.toNat < 128 := by omega
    simp [utf8Bytes, this]
  have h2 : c.toNat ≠ ' '.toNat := by
    have : ' '.toNat = 32 := by decide
    omega
  have h3 : shouldEscape c.toNat = false := by
    have ha : 'a'.toNat = 97 := by decide
    have hz : 'z'.toNat = 122 := by decide
    have hA : 'A'.toNat = 65 := by decide
    have hZ : 'Z'.toNat = 90 := by decide
    have h0 : '0'.toNat = 48 := by decide
    have h9 : '9'.toNat = 57 := by decide
    unfold shouldEscape
    rw [ha, hz, hA, hZ, h0, h9]
    rw [if_pos (by omega)]
  rw [h1]
  simp only [List.flatMap_cons, List.flatMap_nil, List.append_nil, escapeByte]
  rw [if_neg h2, h3]
  simp [Char.ofNat_toNat]

theorem queryEscape_alphanum (st : String) (h : ∀ c ∈ st.data, c.isAlphanum = true) :
    queryEscape st = st := by
  apply String.ext
  simp only [queryEscape]
  generalize st.data = l at h
  induction l with
  | nil => rfl
  | cons c l ih =>
    have hc := escape_alphanum c (h c (List.mem_cons_self c l))
    have hl := ih (fun d hd => h d (List.mem_cons_of_mem c hd))
    simp only [List.flatMap_cons, List.flatMap_append, hc, hl]
    rfl

theorem webhookHandler_decoded (env : Env) (r : InRequest) (payload : WebhookPayload)
    (h : decodesTo env r payload) : webhookHandler env r = handlePayload env payload := by
  obtain ⟨hm, body, hb, hd⟩ := h
  simp [webhookHandler, hm, hb, hd]

theorem handlePayload_status (env : Env) (payload : WebhookPayload) :
    (handlePayload env payload).status = 200 := by
  unfold handlePayload
  split
  · rfl
  · simp only []
    split
    · rfl
    · split <;> rfl

theorem postToGitLab_sent (env : Env) (urlStr comment token : String) :
    (postToGitLab env urlStr comment token).2
      = if env.newRequestErr "POST" urlStr = none then [newPostRequest urlStr comment token]
        else [] := by
  unfold postToGitLab
  cases hreq : env.newRequestErr "POST" urlStr with
  | some err => simp
  | none =>
    simp only []
    cases env.clientDo (newPostRequest urlStr comment token) with
    | error err => simp
    | ok resp => by_cases hs : resp.StatusCode = StatusCreated <;> simp [hs]

theorem handlePayload_outbound (env : Env) (payload : WebhookPayload) :
    (handlePayload env payload).outbound
      = if payload.Branch.IsMain = true
          ∨ payload.Properties.index "sonar.analysis.project_id" = ""
          ∨ payload.Properties.index "sonar.analysis.commit_sha" = "" then []
        else (postToGitLab env
          (env.getenv "GITLAB_URL" ++ "/api/v4/projects/"
            ++ payload.Properties.index "sonar.analysis.project_id" ++ "/repository/commits/"
            ++ payload.Properties.index "sonar.analysis.commit_sha" ++ "/comments")
          (formatComment payload.QualityGate payload.Branch) (env.getenv "GITLAB_TOKEN")).2 := by
  unfold handlePayload
  by_cases hmain : payload.Branch.IsMain = true
  · simp [hmain]
  · by_cases hp : payload.Properties.index "sonar.analysis.project_id" = ""
        ∨ payload.Properties.index "sonar.analysis.commit_sha" = ""
    · simp [hmain, hp]
    · rw [if_neg hmain]
      simp only []
      rw [if_neg hp, if_neg (by tauto), sprintf_commentURL]
      split <;> simp_all

theorem handlePayload_outbound_body (env : Env) (payload : WebhookPayload) :
    ∀ q ∈ (handlePayload env payload).outbound,
      q.Body = encodeSingle "note" (formatComment payload.QualityGate payload.Branch) := by
  intro q hq
  rw [handlePayload_outbound, postToGitLab_sent] at hq
  split at hq
  · simp at hq
  · split at hq
    · simp only [List.mem_singleton] at hq
      rw [hq]
      rfl
    · simp at hq

theorem encoded_header (st : String) (h : ∀ c ∈ st.data, c.isAlphanum = true) :
    encodeSingle "note" ("SonarQube Quality Gate: <a href='" ++ "" ++ "'>" ++ st ++ "</a>\n\n")
      = "note=SonarQube+Quality+Gate%3A+%3Ca+href%3D%27%27%3E" ++ st ++ "%3C%2Fa%3E%0A%0A" := by
  have h1 : queryEscape "note" ++ "="
      ++ queryEscape ("SonarQube Quality Gate: <a href='" ++ "" ++ "'>")
      = "note=SonarQube+Quality+Gate%3A+%3Ca+href%3D%27%27%3E" := by decide
  have h2 : queryEscape "</a>\n\n" = "%3C%2Fa%3E%0A%0A" := by decide
  unfold encodeSingle
  rw [queryEscape_append, queryEscape_append, queryEscape_alphanum st h, h2, ← h1]
  simp only [String.append_assoc]

theorem header_only (qualityGate : QualityGate) (branch : Branch)
    (h : qualityGate.Conditions = []) :
    formatComment qualityGate branch
      = "SonarQube Quality Gate: <a href='" ++ branch.URL ++ "'>" ++ qualityGate.Status
          ++ "</a>\n\n" := by
  simp [formatComment, h, sprintf_header]

/-! ## Properties of the handler, the comment and the publisher -/

/-- C1: a decoded notification whose branch is the main branch leads to no
outbound request, whatever its quality gate, conditions and properties are. -/
theorem main_branch_never_forwarded (env : Env) (r : InRequest) (payload : WebhookPayload)
    (hdec : decodesTo env r payload) (hmain : payload.Branch.IsMain = true) :
    (webhookHandler env r).outbound = [] := by
  rw [webhookHandler_decoded env r payload hdec, handlePayload_outbound]
  simp [hmain]

/-- The witness of C1: a failed gate on the main branch with both commit
properties set and a remote that would answer 201. -/
theorem main_branch_never_forwarded_witness :
    mainBranchPayload.Properties.index "sonar.analysis.project_id" = "123"
      ∧ mainBranchPayload.Properties.index "sonar.analysis.commit_sha" = "abc123"
      ∧ (webhookHandler (testEnv mainBranchJSON mainBranchPayload)
          (postOf mainBranchJSON)).outbound = [] :=
  ⟨by decide, by decide,
    main_branch_never_forwarded (testEnv mainBranchJSON mainBranchPayload)
      (postOf mainBranchJSON) mainBranchPayload ⟨rfl, mainBranchJSON, rfl, by decide⟩ rfl⟩

/-- C2 as stated fails: with the base URL `http://gitlab.example.com` followed
by a line feed, the notification of the test case "Post to Commit" (not the
main branch, both commit properties set) leads to no outbound request, because
`http.NewRequest` rejects the URL string and `postToGitLab` returns its
error. -/
theorem commit_target_rejected_url :
    decodesTo (envWith "http://gitlab.example.com\n" commitJSON commitPayload StatusCreated "")
        (postOf commitJSON) commitPayload
      ∧ commitPayload.Branch.IsMain = false
      ∧ commitPayload.Properties.index "sonar.analysis.project_id" = "123"
      ∧ commitPayload.Properties.index "sonar.analysis.commit_sha" = "abc123"
      ∧ (webhookHandler
          (envWith "http://gitlab.example.com\n" commitJSON commitPayload StatusCreated "")
          (postOf commitJSON)).outbound = [] :=
  ⟨⟨rfl, commitJSON, rfl, by decide⟩, rfl, by decide, by decide, by decide⟩

/-- C2, amended: for a decoded notification off the main branch whose
properties `sonar.analysis.project_id = p` and `sonar.analysis.commit_sha = c`
are both non-empty, and any base URL `b`, the handler builds the URL string
`b/api/v4/projects/p/repository/commits/c/comments` with `p` and `c` inserted
unescaped, whatever `sonar.analysis.mr_iid` is, and passes it to
`http.NewRequest` with the method POST.  When `http.NewRequest` accepts the
string, exactly one request is handed to `client.Do`, the POST request built
from this string; when it rejects the string, none is.  The statement stops
at the calls of the library: it does not say what is sent for the string. -/
theorem commit_target_when_accepted (env : Env) (r : InRequest) (payload : WebhookPayload)
    (b p c : String) (hdec : decodesTo env r payload)
    (hmain : payload.Branch.IsMain = false)
    (hb : env.getenv "GITLAB_URL" = b)
    (hp : payload.Properties.index "sonar.analysis.project_id" = p)
    (hc : payload.Properties.index "sonar.analysis.commit_sha" = c)
    (hpne : p ≠ "") (hcne : c ≠ "") :
    (env.newRequestErr "POST"
          (b ++ "/api/v4/projects/" ++ p ++ "/repository/commits/" ++ c ++ "/comments") = none →
        ∃ q, (webhookHandler env r).outbound = [q] ∧ q.Method = "POST"
          ∧ q.URLStr
              = b ++ "/api/v4/projects/" ++ p ++ "/repository/commits/" ++ c ++ "/comments")
      ∧ (env.newRequestErr "POST"
          (b ++ "/api/v4/projects/" ++ p ++ "/repository/commits/" ++ c ++ "/comments") ≠ none →
        (webhookHandler env r).outbound = []) := by
  rw [webhookHandler_decoded env r payload hdec, handlePayload_outbound, postToGitLab_sent]
  subst hb hp hc
  have hcond : ¬ (payload.Branch.IsMain = true
      ∨ payload.Properties.index "sonar.analysis.project_id" = ""
      ∨ payload.Properties.index "sonar.analysis.commit_sha" = "") := by
    simp [hmain, hpne, hcne]
  rw [if_neg hcond]
  constructor
  · intro hacc
    rw [if_pos hacc]
    exact ⟨_, rfl, rfl, rfl⟩
  · intro hrej
    rw [if_neg hrej]

/-- The witness of the amended C2: the properties hold a project, a commit and
a merge request; the one request is built from the commit URL string. -/
theorem commit_target_when_accepted_witness :
    ∃ q, (webhookHandler (envWith "https://gitlab.example.com" bothJSON bothPayload StatusCreated "")
          (postOf bothJSON)).outbound = [q] ∧ q.Method = "POST"
      ∧ q.URLStr = "https://gitlab.example.com" ++ "/api/v4/projects/" ++ "42"
          ++ "/repository/commits/" ++ "deadbeef" ++ "/comments" :=
  (commit_target_when_accepted
    (envWith "https://gitlab.example.com" bothJSON bothPayload StatusCreated "")
    (postOf bothJSON) bothPayload "https://gitlab.example.com" "42" "deadbeef"
    ⟨rfl, bothJSON, rfl, by decide⟩ rfl rfl (by decide) (by decide) (by decide) (by decide)).1
    (by decide)

/-- C3, the code at the input of the test case "Post to Merge Request": no
request is made, the handler logs that properties are missing and answers
200. -/
theorem merge_request_case_not_posted :
    webhookHandler (testEnv mergeRequestJSON mergeRequestPayload) (postOf mergeRequestJSON)
      = ⟨200, "", ["Missing required properties for MR\n"], []⟩ := by
  decide

/-- C4: a decoded notification with neither a usable commit pair nor a usable
merge request pair leads to no outbound request, and the handler answers 200;
so does one whose properties map is nil. -/
theorem incomplete_never_forwarded (env : Env) (r : InRequest) (payload : WebhookPayload)
    (hdec : decodesTo env r payload)
    (h : payload.Properties = none
      ∨ (¬ (payload.Properties.index "sonar.analysis.project_id" ≠ ""
            ∧ payload.Properties.index "sonar.analysis.commit_sha" ≠ "")
        ∧ ¬ (payload.Properties.index "sonar.analysis.project_id" ≠ ""
            ∧ payload.Properties.index "sonar.analysis.mr_iid" ≠ ""))) :
    (webhookHandler env r).outbound = [] ∧ (webhookHandler env r).status = 200 := by
  rw [webhookHandler_decoded env r payload hdec, handlePayload_outbound, handlePayload_status]
  refine ⟨?_, rfl⟩
  rcases h with h | ⟨h, _⟩
  · simp [h, GoMap.index]
  · have : payload.Properties.index "sonar.analysis.project_id" = ""
        ∨ payload.Properties.index "sonar.analysis.commit_sha" = "" := by
      by_cases hp : payload.Properties.index "sonar.analysis.project_id" = ""
      · exact Or.inl hp
      · by_cases hc : payload.Properties.index "sonar.analysis.commit_sha" = ""
        · exact Or.inr hc
        · exact absurd ⟨hp, hc⟩ h
    simp [this]

/-- The witness of C4: the body `{}`, whose properties map is nil. -/
theorem incomplete_never_forwarded_witness :
    (webhookHandler (testEnv emptyJSON emptyPayload) (postOf emptyJSON)).outbound = []
      ∧ (webhookHandler (testEnv emptyJSON emptyPayload) (postOf emptyJSON)).status = 200 :=
  incomplete_never_forwarded (testEnv emptyJSON emptyPayload) (postOf emptyJSON) emptyPayload
    ⟨rfl, emptyJSON, rfl, by decide⟩ (Or.inl rfl)

/-- C5: with no conditions, the comment is the header line alone: the fixed
text around the branch URL and the gate status, both copied unchanged, and
two line feeds.  The gate name and the branch name and type do not occur. -/
theorem formatComment_no_conditions (qualityGate : QualityGate) (branch : Branch)
    (h : qualityGate.Conditions = []) :
    formatComment qualityGate branch
      = "SonarQube Quality Gate: <a href='" ++ branch.URL ++ "'>" ++ qualityGate.Status
          ++ "</a>\n\n" := by
  simp [formatComment, h, sprintf_header]

/-- The witness of C5: a URL and a status holding an apostrophe, angle
brackets and an ampersand. -/
theorem formatComment_no_conditions_witness :
    formatComment ⟨"Sonar way", "O'K <&>", []⟩
        ⟨"feature/x", "BRANCH", false, "https://sonar.example.com/dashboard?id=a&branch='x'<y>"⟩
      = "SonarQube Quality Gate: <a href='https://sonar.example.com/dashboard?id=a&branch='x'<y>'>O'K <&></a>\n\n" :=
  formatComment_no_conditions ⟨"Sonar way", "O'K <&>", []⟩
    ⟨"feature/x", "BRANCH", false, "https://sonar.example.com/dashboard?id=a&branch='x'<y>"⟩ rfl

/-- C6: the comment for the conditions `xs ++ ys` is the comment for `xs`
followed by one line per condition of `ys`, in the order of `ys`. -/
theorem formatComment_append (name status : String) (branch : Branch)
    (xs ys : List QualityGateCondition) :
    formatComment ⟨name, status, xs ++ ys⟩ branch
      = formatComment ⟨name, status, xs⟩ branch
        ++ String.join (ys.map fun c =>
            "- " ++ c.Metric ++ " (" ++ c.Operator ++ "): " ++ c.Value ++ " (" ++ c.Status
              ++ ") [Threshold: " ++ c.ErrorThreshold ++ "]\n") := by
  simp only [formatComment, List.foldl_append, sprintf_condition]
  exact foldl_append_eq _ ys _

/-- C7, the code at the input of the test case "Post to Commit" (status `OK`,
empty branch URL, no conditions): the body of the one request handed to
`client.Do` ends in `%0A%0A`, the encoding of the two line feeds of the
comment, and is not the body with `%5Cn%5Cn` at its end that the test
expects. -/
theorem test_body_ends_in_line_feeds :
    (webhookHandler (testEnv commitJSON commitPayload) (postOf commitJSON)).outbound.map
        (fun q => q.Body)
      = ["note=SonarQube+Quality+Gate%3A+%3Ca+href%3D%27%27%3EOK%3C%2Fa%3E%0A%0A"]
    ∧ ¬ ∀ q ∈ (webhookHandler (testEnv commitJSON commitPayload) (postOf commitJSON)).outbound,
        q.Body = "note=SonarQube+Quality+Gate%3A+%3Ca+href%3D%27%27%3E" ++ "OK"
          ++ "%3C%2Fa%3E%5Cn%5Cn" := by
  decide

/-- The form body the code builds: for a decoded notification with an empty
branch URL, no conditions and a gate status `s` of ASCII letters and digits
only, the body of every request handed to `client.Do` is
`note=SonarQube+Quality+Gate%3A+%3Ca+href%3D%27%27%3E` ++ `s` ++ `%3C%2Fa%3E%0A%0A`:
the field `note` holding the comment, spaces as `+`, the reserved characters
and the two line feeds percent-escaped. -/
theorem form_body_of_plain_status (env : Env) (r : InRequest) (payload : WebhookPayload)
    (hdec : decodesTo env r payload) (hurl : payload.Branch.URL = "")
    (hcond : payload.QualityGate.Conditions = [])
    (hs : ∀ c ∈ payload.QualityGate.Status.data, c.isAlphanum = true) :
    ∀ q ∈ (webhookHandler env r).outbound,
      q.Body = "note=SonarQube+Quality+Gate%3A+%3Ca+href%3D%27%27%3E"
        ++ payload.QualityGate.Status ++ "%3C%2Fa%3E%0A%0A" := by
  intro q hq
  rw [webhookHandler_decoded env r payload hdec] at hq
  rw [handlePayload_outbound_body env payload q hq,
    header_only payload.QualityGate payload.Branch hcond, hurl]
  exact encoded_header _ hs

/-- The form body at the status `FAILED` with the commit properties. -/
theorem form_body_of_plain_status_witness :
    ∃ q ∈ (webhookHandler (testEnv failedCommitJSON failedCommitPayload)
        (postOf failedCommitJSON)).outbound,
      q.Body = "note=SonarQube+Quality+Gate%3A+%3Ca+href%3D%27%27%3E" ++ "FAILED"
        ++ "%3C%2Fa%3E%0A%0A" :=
  ⟨newPostRequest "http://gitlab.example.com/api/v4/projects/123/repository/commits/abc123/comments"
      (formatComment failedCommitPayload.QualityGate failedCommitPayload.Branch) "token123",
    by decide,
    form_body_of_plain_status (testEnv failedCommitJSON failedCommitPayload)
      (postOf failedCommitJSON) failedCommitPayload ⟨rfl, failedCommitJSON, rfl, by decide⟩
      rfl rfl (by decide) _ (by decide)⟩

/-- C8 as stated fails: with the properties under the keys `project_id` and
`commit_sha`, the scenario (not the main branch, status `OK`, empty branch
URL) leads to no outbound request. -/
theorem bare_keys_not_forwarded :
    decodesTo (testEnv bareKeysJSON bareKeysPayload) (postOf bareKeysJSON) bareKeysPayload
      ∧ (webhookHandler (testEnv bareKeysJSON bareKeysPayload) (postOf bareKeysJSON)).outbound
          = [] :=
  ⟨⟨rfl, bareKeysJSON, rfl, by decide⟩, by decide⟩

/-- C8, amended: the routing properties are looked up under the keys
`sonar.analysis.project_id` and `sonar.analysis.commit_sha`.  The notification
with isMain false, status `OK`, empty branch URL and the properties
`sonar.analysis.project_id = 123`, `sonar.analysis.commit_sha = abc123` is
forwarded: when `http.NewRequest` accepts the URL string
`<base>/api/v4/projects/123/repository/commits/abc123/comments`, exactly one
request is handed to `client.Do`, the POST request built from this string.
The statement stops at the calls of the library: it does not say what is sent
for the string. -/
theorem namespaced_keys_forwarded (env : Env) (r : InRequest)
    (hdec : decodesTo env r commitPayload)
    (hacc : env.newRequestErr "POST"
      (env.getenv "GITLAB_URL" ++ "/api/v4/projects/123/repository/commits/abc123/comments")
        = none) :
    ∃ q, (webhookHandler env r).outbound = [q] ∧ q.Method = "POST"
      ∧ q.URLStr = env.getenv "GITLAB_URL"
          ++ "/api/v4/projects/123/repository/commits/abc123/comments" := by
  have hp : commitPayload.Properties.index "sonar.analysis.project_id" = "123" := by decide
  have hc : commitPayload.Properties.index "sonar.analysis.commit_sha" = "abc123" := by decide
  have hurl : env.getenv "GITLAB_URL" ++ "/api/v4/projects/" ++ "123" ++ "/repository/commits/"
      ++ "abc123" ++ "/comments"
      = env.getenv "GITLAB_URL" ++ "/api/v4/projects/123/repository/commits/abc123/comments" := by
    simp only [String.append_assoc]
    rfl
  rw [webhookHandler_decoded env r commitPayload hdec, handlePayload_outbound,
    postToGitLab_sent, hp, hc, hurl, if_pos hacc]
  rw [if_neg (by decide)]
  exact ⟨_, rfl, rfl, rfl⟩

/-- The witness of the amended C8: the test case "Post to Commit". -/
theorem namespaced_keys_forwarded_witness :
    ∃ q, (webhookHandler (testEnv commitJSON commitPayload) (postOf commitJSON)).outbound = [q]
      ∧ q.Method = "POST"
      ∧ q.URLStr = "http://gitlab.example.com"
          ++ "/api/v4/projects/123/repository/commits/abc123/comments" :=
  namespaced_keys_forwarded (testEnv commitJSON commitPayload) (postOf commitJSON)
    ⟨rfl, commitJSON, rfl, by decide⟩ (by decide)

/-- C9: `postToGitLab` returns nil exactly when the request was built, the
client returned a response without a transport error, and the response status
is 201.  For a response with any other status it returns the error
`failed to post comment: ` followed by the response body; on a transport error
it returns that error; and it hands at most one request to the client. -/
theorem postToGitLab_result (env : Env) (urlStr comment token : String) :
    ((postToGitLab env urlStr comment token).1 = none ↔
        env.newRequestErr "POST" urlStr = none
          ∧ ∃ resp, env.clientDo (newPostRequest urlStr comment token) = Except.ok resp
              ∧ resp.StatusCode = 201)
      ∧ (∀ resp, env.newRequestErr "POST" urlStr = none →
          env.clientDo (newPostRequest urlStr comment token) = Except.ok resp →
          resp.StatusCode ≠ 201 →
          (postToGitLab env urlStr comment token).1
            = some ("failed to post comment: " ++ resp.Body))
      ∧ (∀ err, env.newRequestErr "POST" urlStr = none →
          env.clientDo (newPostRequest urlStr comment token) = Except.error err →
          (postToGitLab env urlStr comment token).1 = some err)
      ∧ (postToGitLab env urlStr comment token).2.length ≤ 1 := by
  refine ⟨?_, ?_, ?_, ?_⟩
  · unfold postToGitLab
    cases hreq : env.newRequestErr "POST" urlStr with
    | some err => simp
    | none =>
      simp only []
      cases hdo : env.clientDo (newPostRequest urlStr comment token) with
      | error err => simp
      | ok resp =>
        by_cases hs : resp.StatusCode = StatusCreated
        · have hs201 : resp.StatusCode = 201 := hs
          simp [hs201, StatusCreated]
        · have hs201 : ¬ resp.StatusCode = 201 := hs
          simp [hs201, StatusCreated]
  · intro resp hreq hdo hs
    have hs2 : resp.StatusCode ≠ StatusCreated := hs
    unfold postToGitLab
    simp only [hreq, hdo]
    rw [if_pos hs2, sprintf_failed]
  · intro err hreq hdo
    unfold postToGitLab
    simp only [hreq, hdo]
  · rw [postToGitLab_sent]
    split <;> simp

/-- The witness of C9: a remote that answers 200 with the body `ok`. -/
theorem postToGitLab_result_witness :
    (postToGitLab (envWith "http://gitlab.example.com" commitJSON commitPayload 200 "ok")
        "http://gitlab.example.com/api/v4/projects/123/repository/commits/abc123/comments"
        "hello" "token123").1
      = some ("failed to post comment: " ++ "ok") :=
  (postToGitLab_result (envWith "http://gitlab.example.com" commitJSON commitPayload 200 "ok")
    "http://gitlab.example.com/api/v4/projects/123/repository/commits/abc123/comments"
    "hello" "token123").2.1 ⟨200, "ok"⟩ (by decide) rfl (by decide)

/-- C10 as stated fails: of two POST requests, neither of which yields a
decoded payload, the one whose body cannot be read is answered 500 and the one
whose body is not JSON is answered 400. -/
theorem unreadable_body_is_500 :
    (∀ payload, ¬ decodesTo (testEnv commitJSON commitPayload)
        ⟨"POST", Except.error "unexpected EOF"⟩ payload)
      ∧ (∀ payload, ¬ decodesTo (testEnv commitJSON commitPayload) (postOf "not json") payload)
      ∧ (webhookHandler (testEnv commitJSON commitPayload)
          ⟨"POST", Except.error "unexpected EOF"⟩).status = 500
      ∧ (webhookHandler (testEnv commitJSON commitPayload) (postOf "not json")).status = 400 := by
  refine ⟨?_, ?_, by decide, by decide⟩
  · rintro payload ⟨_, body, hb, _⟩
    cases hb
  · rintro payload ⟨_, body, hb, hd⟩
    cases hb
    have : (testEnv commitJSON commitPayload).unmarshal "not json" = none := by decide
    rw [this] at hd
    cases hd

/-- C10, amended: the inbound status is decided by the method, whether the
body can be read and whether it decodes.  A request that is not a POST gets
405; a POST whose body cannot be read gets 500; a POST whose body is read and
fails to decode gets 400; none of the three makes an outbound request.  Every
POST whose body decodes gets 200, whatever the handler then does and whatever
becomes of the publish attempt. -/
theorem inbound_status (env : Env) (r : InRequest) :
    (r.Method ≠ "POST" →
        (webhookHandler env r).status = 405 ∧ (webhookHandler env r).outbound = [])
      ∧ (r.Method = "POST" → ∀ err, r.Body = Except.error err →
        (webhookHandler env r).status = 500 ∧ (webhookHandler env r).outbound = [])
      ∧ (r.Method = "POST" → ∀ body, r.Body = Except.ok body → env.unmarshal body = none →
        (webhookHandler env r).status = 400 ∧ (webhookHandler env r).outbound = [])
      ∧ (∀ payload, decodesTo env r payload → (webhookHandler env r).status = 200) := by
  refine ⟨?_, ?_, ?_, ?_⟩
  · intro hm
    simp [webhookHandler, hm, httpError, StatusMethodNotAllowed]
  · intro hm err hb
    simp [webhookHandler, hm, hb, httpError, StatusInternalServerError]
  · intro hm body hb hd
    simp [webhookHandler, hm, hb, hd, httpError, StatusBadRequest]
  · intro payload hdec
    rw [webhookHandler_decoded env r payload hdec, handlePayload_status]

/-- The witness of the amended C10: a GET, a POST cut short, a POST that is
not JSON, and the test case "Post to Commit" against a remote that answers
500. -/
theorem inbound_status_witness :
    (webhookHandler (testEnv commitJSON commitPayload) ⟨"GET", Except.ok ""⟩).status = 405
      ∧ (webhookHandler (testEnv commitJSON commitPayload)
          ⟨"POST", Except.error "unexpected EOF"⟩).status = 500
      ∧ (webhookHandler (testEnv commitJSON commitPayload) (postOf "not json")).status = 400
      ∧ (webhookHandler
          (envWith "http://gitlab.example.com" commitJSON commitPayload 500 "boom")
          (postOf commitJSON)).status = 200 :=
  ⟨((inbound_status (testEnv commitJSON commitPayload) ⟨"GET", Except.ok ""⟩).1
      (by decide)).1,
    ((inbound_status (testEnv commitJSON commitPayload)
      ⟨"POST", Except.error "unexpected EOF"⟩).2.1 rfl "unexpected EOF" rfl).1,
    ((inbound_status (testEnv commitJSON commitPayload) (postOf "not json")).2.2.1 rfl
      "not json" rfl (by decide)).1,
    (inbound_status (envWith "http://gitlab.example.com" commitJSON commitPayload 500 "boom")
      (postOf commitJSON)).2.2.2 commitPayload ⟨rfl, commitJSON, rfl, by decide⟩⟩

end SonarComment
